import Mathlib

/-!
Verification development for the Sophos endpoint dashboard
(`src/lib/sophos-api.ts` and `src/app/page.tsx`).

The TypeScript code is shallowly embedded: the effectful steps
(`invoke` calls for credential loading, token exchange and the raw
inventory fetch, and `process.env` flags) become explicit parameters,
and the pure data transformations (field normalization, fallback
selection, deduplication, statistics aggregation) become Lean
functions translated clause by clause from the source.
-/

namespace SophosDashboard

/-- A JavaScript runtime value, for the loosely typed raw fields that the
code probes with truthiness tests (notably `item.online`). -/
inductive JSVal where
  | vNull
  | vUndefined
  | vBool (b : Bool)
  | vNum (n : Int)
  | vStr (s : String)
deriving DecidableEq, Repr

/-- JavaScript truthiness: `null`, `undefined`, `false`, `0` and `""`
are falsy, everything else we model is truthy. -/
def JSVal.truthy : JSVal → Bool
  | .vNull => false
  | .vUndefined => false
  | .vBool b => b
  | .vNum n => decide (n ≠ 0)
  | .vStr s => decide (s ≠ "")

/-- The `os` sub-object of a raw vendor record (`item.os` in the source);
either field may be absent. -/
structure RawOS where
  name : Option String
  version : Option String
deriving DecidableEq, Repr

/-- The `health` sub-object of a raw vendor record. -/
structure RawHealth where
  overall : Option String
deriving DecidableEq, Repr

/-- The `group` sub-object of a raw vendor record. -/
structure RawGroup where
  name : Option String
deriving DecidableEq, Repr

/-- A raw vendor-shaped endpoint record (the `item : any` in
`fetchSophosEndpoints`).  Fields the code reads are modelled; a field
that may be absent is an `Option` (absent = `none`), and `online`, which
the code tests only for truthiness, is a full `JSVal`. -/
structure RawEndpoint where
  id : String
  hostname : Option String
  os : Option RawOS
  endpoint_type : Option String
  online : JSVal
  health : Option RawHealth
  group : Option RawGroup
  ipAddresses : Option (List String)
  ip_addresses : Option (List String)
  ipv4Addresses : Option (List String)
  ipv6Addresses : Option (List String)
  ipv4_addresses : Option (List String)
  ipv6_addresses : Option (List String)
  last_seen : Option String
deriving DecidableEq, Repr

/-- Canonical `os` shape (`SophosEndpoint.os` in the source). -/
structure OSInfo where
  name : String
  version : Option String
deriving DecidableEq, Repr

/-- Canonical `health` shape. -/
structure HealthInfo where
  overall : String
deriving DecidableEq, Repr

/-- Canonical `group` shape. -/
structure GroupInfo where
  name : String
deriving DecidableEq, Repr

/-- The canonical endpoint record (`interface SophosEndpoint` in
`sophos-api.ts`).  `online` stays a `JSVal` because the source computes
it as `item.online || false`, which returns the original runtime value
when it is truthy. -/
structure SophosEndpoint where
  id : String
  hostname : String
  os : OSInfo
  type : String
  online : JSVal
  health : HealthInfo
  group : GroupInfo
  ipAddresses : List String
  lastSeen : Option String
deriving DecidableEq, Repr

/-- The JavaScript idiom `x || d` for a possibly absent string field:
an absent field and the empty string are both falsy, so both resolve to
the default. -/
def orDefault : Option String → String → String
  | some s, d => if s = "" then d else s
  | none, d => d

/-- The guard `item.f && Array.isArray(item.f) && item.f.length > 0`
from the source: `true` exactly when the field is a present, non-empty
list. -/
def nonEmptyArr : Option (List String) → Bool
  | some l => decide (l ≠ [])
  | none => false

/-- The expression `item.f && Array.isArray(item.f) ? item.f : []`:
a present list is used as is, an absent one becomes `[]`. -/
def arrOrNil : Option (List String) → List String
  | some l => l
  | none => []

/-- IP address resolution from `fetchSophosEndpoints` (lines 150-168 of
`sophos-api.ts`): prefer a non-empty `ipAddresses`, then a non-empty
`ip_addresses`, otherwise concatenate `ipv4Addresses`, `ipv6Addresses`,
`ipv4_addresses`, `ipv6_addresses` in that order, treating absent fields
as empty. -/
def resolveIpAddresses (item : RawEndpoint) : List String :=
  if nonEmptyArr item.ipAddresses then arrOrNil item.ipAddresses
  else if nonEmptyArr item.ip_addresses then arrOrNil item.ip_addresses
  else
    arrOrNil item.ipv4Addresses ++ arrOrNil item.ipv6Addresses ++
      arrOrNil item.ipv4_addresses ++ arrOrNil item.ipv6_addresses

/-- The per-record transform inside `fetchSophosEndpoints`
(lines 170-187 of `sophos-api.ts`): defaults `hostname` to "Unknown",
`os.name` to "Unknown OS", `type` (read from `endpoint_type`) to
"computer", `online` to `false`, `health.overall` to "unknown",
`group.name` to "No Group", and resolves `ipAddresses`. -/
def normalizeEndpoint (item : RawEndpoint) : SophosEndpoint :=
  { id := item.id
    hostname := orDefault item.hostname "Unknown"
    os :=
      { name := orDefault (item.os.bind RawOS.name) "Unknown OS"
        version := item.os.bind RawOS.version }
    type := orDefault item.endpoint_type "computer"
    online := if item.online.truthy then item.online else .vBool false
    health := { overall := orDefault (item.health.bind RawHealth.overall) "unknown" }
    group := { name := orDefault (item.group.bind RawGroup.name) "No Group" }
    ipAddresses := resolveIpAddresses item
    lastSeen := item.last_seen }

/-- `fetchSophosEndpoints` over an already-resolved transport outcome:
the `invoke('fetch_sophos_endpoints')` call is modelled by its result
(`.ok raw` for a delivered raw list, `.error msg` for a thrown failure,
which the source catches and rethrows).  On success every raw record is
normalized. -/
def fetchSophosEndpoints (rawResult : Except String (List RawEndpoint)) :
    Except String (List SophosEndpoint) :=
  match rawResult with
  | .ok rawEndpoints => .ok (rawEndpoints.map normalizeEndpoint)
  | .error e => .error e

/-- The credential structure stored in the secrets file
(`interface SophosCredentials`). -/
structure SophosCredentials where
  client_id : String
  client_secret : String
  tenant_id : String
  region : String
deriving DecidableEq, Repr

/-- The `source` discriminator of the aggregate result. -/
inductive DataSource where
  | api
  | mock
deriving DecidableEq, Repr

/-- The return shape of `getSophosEndpointData`:
`{ success, data, source, error? }`. -/
structure SophosResult where
  success : Bool
  data : List SophosEndpoint
  source : DataSource
  error : Option String
deriving DecidableEq, Repr

/-- The fixed 10-record sample dataset declared at the top of
`getSophosEndpointData` (lines 221-332 of `sophos-api.ts`), transcribed
record by record. -/
def mockEndpoints : List SophosEndpoint :=
  [ { id := "1", hostname := "DESKTOP-ABC123"
      os := { name := "Windows 11", version := some "22H2" }
      type := "computer", online := .vBool true
      health := { overall := "good" }
      group := { name := "IT Department" }
      ipAddresses := ["192.168.1.100"]
      lastSeen := some "2024-01-15T10:30:00Z" },
    { id := "2", hostname := "LAPTOP-XYZ789"
      os := { name := "Windows 10", version := some "21H2" }
      type := "computer", online := .vBool false
      health := { overall := "warning" }
      group := { name := "Sales Team" }
      ipAddresses := ["192.168.1.101"]
      lastSeen := some "2024-01-14T16:45:00Z" },
    { id := "3", hostname := "MACBOOK-PRO-001"
      os := { name := "macOS", version := some "14.2" }
      type := "computer", online := .vBool true
      health := { overall := "good" }
      group := { name := "Design Team" }
      ipAddresses := ["192.168.1.102"]
      lastSeen := some "2024-01-15T11:00:00Z" },
    { id := "4", hostname := "SERVER-PROD-01"
      os := { name := "Windows Server 2022", version := none }
      type := "server", online := .vBool true
      health := { overall := "critical" }
      group := { name := "Production Servers" }
      ipAddresses := ["192.168.1.50"]
      lastSeen := some "2024-01-15T11:15:00Z" },
    { id := "5", hostname := "UBUNTU-DEV-01"
      os := { name := "Ubuntu", version := some "22.04" }
      type := "server", online := .vBool true
      health := { overall := "good" }
      group := { name := "Development" }
      ipAddresses := ["192.168.1.51"]
      lastSeen := some "2024-01-15T11:20:00Z" },
    { id := "6", hostname := "WORKSTATION-DESIGN"
      os := { name := "Windows 11", version := some "23H2" }
      type := "computer", online := .vBool true
      health := { overall := "good" }
      group := { name := "Design Team" }
      ipAddresses := ["192.168.1.103"]
      lastSeen := some "2024-01-15T11:25:00Z" },
    { id := "7", hostname := "LAPTOP-SALES-01"
      os := { name := "Windows 10", version := some "22H2" }
      type := "computer", online := .vBool false
      health := { overall := "warning" }
      group := { name := "Sales Team" }
      ipAddresses := ["192.168.1.104"]
      lastSeen := some "2024-01-13T14:20:00Z" },
    { id := "8", hostname := "SERVER-DB-01"
      os := { name := "Windows Server 2019", version := none }
      type := "server", online := .vBool true
      health := { overall := "good" }
      group := { name := "Production Servers" }
      ipAddresses := ["192.168.1.52"]
      lastSeen := some "2024-01-15T11:30:00Z" },
    { id := "9", hostname := "LAPTOP-HR-01"
      os := { name := "Windows 11", version := some "23H2" }
      type := "computer", online := .vBool true
      health := { overall := "good" }
      group := { name := "HR Department" }
      ipAddresses := ["192.168.1.105"]
      lastSeen := some "2024-01-15T11:35:00Z" },
    { id := "10", hostname := "IPHONE-SALES-02"
      os := { name := "iOS", version := some "17.2" }
      type := "mobile", online := .vBool true
      health := { overall := "good" }
      group := { name := "Sales Team" }
      ipAddresses := ["192.168.1.106"]
      lastSeen := some "2024-01-15T11:40:00Z" } ]

/-- `getSophosEndpointData` (lines 334-388 of `sophos-api.ts`) with its
effects as parameters: `forceMockData` is the
`NEXT_PUBLIC_USE_MOCK_DATA === 'true'` check, `credentials` the outcome
of `loadSophosCredentials()` (which catches its own errors and returns
`null`), `accessToken` the outcome of `getSophosAccessToken()` (likewise
`null` on failure, which the source turns into a thrown `Error` caught
by the surrounding `try`), and `rawFetch` the transport outcome consumed
by `fetchSophosEndpoints`. -/
def getSophosEndpointData (forceMockData : Bool)
    (credentials : Option SophosCredentials)
    (accessToken : Option String)
    (rawFetch : Except String (List RawEndpoint)) : SophosResult :=
  if forceMockData then
    { success := true, data := mockEndpoints, source := .mock, error := none }
  else
    match credentials with
    | none => { success := true, data := mockEndpoints, source := .mock, error := none }
    | some _ =>
      match accessToken with
      | none =>
        { success := false, data := mockEndpoints, source := .mock
          error := some "Failed to obtain access token from Sophos Central" }
      | some _ =>
        match fetchSophosEndpoints rawFetch with
        | .ok endpoints =>
          { success := true, data := endpoints, source := .api, error := none }
        | .error msg =>
          { success := false, data := mockEndpoints, source := .mock, error := some msg }

/-- One step of the deduplicating `reduce` in `fetchData`
(lines 85-93 of `page.tsx`): push the endpoint unless some accumulated
endpoint already carries its `id` (in which case the source only logs a
warning). -/
def dedupStep (acc : List SophosEndpoint) (endpoint : SophosEndpoint) :
    List SophosEndpoint :=
  if acc.any (fun e => e.id = endpoint.id) then acc else acc ++ [endpoint]

/-- `result.data.reduce(..., [])` from `fetchData`: deduplication by
`id`, keeping the first occurrence. -/
def dedupEndpoints (data : List SophosEndpoint) : List SophosEndpoint :=
  data.foldl dedupStep []

/-- The accumulator of the health-bucket `reduce` in `fetchData`
(lines 114-120 of `page.tsx`). -/
structure HealthCounts where
  healthy : Nat
  warning : Nat
  critical : Nat
deriving DecidableEq, Repr

/-- One step of the health-bucket `reduce`: "good", "warning" and
"critical" each bump their bucket; any other value bumps none. -/
def healthStep (acc : HealthCounts) (endpoint : SophosEndpoint) : HealthCounts :=
  if endpoint.health.overall = "good" then { acc with healthy := acc.healthy + 1 }
  else if endpoint.health.overall = "warning" then { acc with warning := acc.warning + 1 }
  else if endpoint.health.overall = "critical" then { acc with critical := acc.critical + 1 }
  else acc

/-- One of the three frequency-table `reduce`s
(`acc[key] = (acc[key] || 0) + 1`), modelled as the function from key to
count, with absent keys reading as 0. -/
def countsByKey (data : List SophosEndpoint) (key : SophosEndpoint → String) :
    String → Nat :=
  data.foldl (fun acc e => fun k => if key e = k then acc k + 1 else acc k)
    (fun _ => 0)

/-- `interface DashboardStats` from `page.tsx`. -/
structure DashboardStats where
  totalEndpoints : Nat
  onlineEndpoints : Nat
  offlineEndpoints : Nat
  healthyEndpoints : Nat
  warningEndpoints : Nat
  criticalEndpoints : Nat
  osCounts : String → Nat
  typeCounts : String → Nat
  groupCounts : String → Nat

/-- The statistics block of `fetchData` (lines 108-149 of `page.tsx`),
computed from its `loadedEndpoints` argument exactly as the source
computes them from `result.data`. -/
def computeStats (loadedEndpoints : List SophosEndpoint) : DashboardStats :=
  let totalEndpoints := loadedEndpoints.length
  let onlineEndpoints :=
    (loadedEndpoints.filter (fun e => e.online.truthy)).length
  let offlineEndpoints := totalEndpoints - onlineEndpoints
  let healthCounts :=
    loadedEndpoints.foldl healthStep { healthy := 0, warning := 0, critical := 0 }
  { totalEndpoints := totalEndpoints
    onlineEndpoints := onlineEndpoints
    offlineEndpoints := offlineEndpoints
    healthyEndpoints := healthCounts.healthy
    warningEndpoints := healthCounts.warning
    criticalEndpoints := healthCounts.critical
    osCounts := countsByKey loadedEndpoints (fun e => e.os.name)
    typeCounts := countsByKey loadedEndpoints (fun e => e.type)
    groupCounts := countsByKey loadedEndpoints (fun e => e.group.name) }

/-- The observable outcome of one `fetchData` cycle: either the state it
stores (`setEndpoints`, `setStats`, `setDataSource`) or the error
message it stores (`setError`). -/
inductive FetchOutcome where
  | loaded (endpoints : List SophosEndpoint) (stats : DashboardStats)
      (source : DataSource)
  | failed (errorMessage : String)

/-- `fetchData` from `page.tsx` over an already-computed
`getSophosEndpointData()` result: on `result.success` it stores the
deduplicated `result.data` as the endpoint list but computes the
statistics from `result.data` itself (`loadedEndpoints = result.data`,
line 109); otherwise it throws, and its own `catch` stores the fixed
message "Failed to fetch endpoint data". -/
def fetchData (result : SophosResult) : FetchOutcome :=
  if result.success then
    .loaded (dedupEndpoints result.data) (computeStats result.data) result.source
  else
    .failed "Failed to fetch endpoint data"

/-- Modelled from the spec: deduplication by `id`, first-occurrence-wins
("of any raw records sharing the same id, only the first-encountered one
is kept").  An element survives exactly when its `id` was not seen at an
earlier position.  Used as the specification side of the deduplication
claims. -/
def firstOccAux : List SophosEndpoint → List String → List SophosEndpoint
  | [], _ => []
  | e :: rest, seen =>
    if e.id ∈ seen then firstOccAux rest seen
    else e :: firstOccAux rest (e.id :: seen)

/-- Modelled from the spec: the first occurrence of each `id`, in order
of first appearance. -/
def firstOccurrences (data : List SophosEndpoint) : List SophosEndpoint :=
  firstOccAux data []

/-- A sample credential record (contents never influence the pure
control flow; only presence does). -/
def sampleCredentials : SophosCredentials :=
  { client_id := "client", client_secret := "secret"
    tenant_id := "tenant", region := "us01" }

/-- A raw record with every optional field absent and `online`
undefined. -/
def rawAllAbsent : RawEndpoint :=
  { id := "empty", hostname := none, os := none, endpoint_type := none
    online := .vUndefined, health := none, group := none
    ipAddresses := none, ip_addresses := none
    ipv4Addresses := none, ipv6Addresses := none
    ipv4_addresses := none, ipv6_addresses := none, last_seen := none }

/-- A raw record whose string fields are present but empty and whose
`online` is the falsy number 0. -/
def rawFalsy : RawEndpoint :=
  { rawAllAbsent with
    id := "falsy"
    hostname := some ""
    os := some { name := some "", version := none }
    endpoint_type := some ""
    online := .vNum 0
    health := some { overall := none }
    group := some { name := some "" } }

/-- The raw record of the spec's IP-resolution example: empty
`ipAddresses` and `ip_addresses`, one IPv4 and one IPv6 address in the
split camelCase fields. -/
def rawIpSplit : RawEndpoint :=
  { rawAllAbsent with
    id := "ip"
    ipAddresses := some []
    ip_addresses := some []
    ipv4Addresses := some ["10.0.0.1"]
    ipv6Addresses := some ["::1"] }

/-- A raw record carrying a combined non-empty `ipAddresses` field. -/
def rawIpCombined : RawEndpoint :=
  { rawAllAbsent with id := "ipc", ipAddresses := some ["1.2.3.4"] }

/-- A raw record carrying only the snake_case `ip_addresses` field. -/
def rawIpSnake : RawEndpoint :=
  { rawAllAbsent with id := "ips", ip_addresses := some ["5.6.7.8"] }

/-- First of two raw records sharing `id = "42"`. -/
def rawDupA : RawEndpoint :=
  { rawAllAbsent with
    id := "42"
    hostname := some "FIRST-HOST"
    online := .vBool true }

/-- Second of two raw records sharing `id = "42"`. -/
def rawDupB : RawEndpoint :=
  { rawAllAbsent with
    id := "42"
    hostname := some "SECOND-HOST"
    online := .vBool false }

/-- A concrete canonical endpoint used to build duplicate-id lists. -/
def dupSample : SophosEndpoint :=
  { id := "1", hostname := "HOST-A"
    os := { name := "Windows 11", version := none }
    type := "computer", online := .vBool true
    health := { overall := "good" }, group := { name := "G" }
    ipAddresses := [], lastSeen := none }

/-- A second canonical endpoint with the same `id` as `dupSample` but
different content. -/
def dupSampleB : SophosEndpoint :=
  { dupSample with hostname := "HOST-B", online := .vBool false }

/-- A canonical endpoint whose health is outside the three counted
buckets. -/
def unknownHealthSample : SophosEndpoint :=
  { dupSample with id := "2", health := { overall := "unknown" } }

/-! ### Supporting lemmas -/

theorem foldl_dedupStep_eq (data : List SophosEndpoint) :
    ∀ (acc : List SophosEndpoint) (seen : List String),
      (∀ i : String, i ∈ seen ↔ ∃ e ∈ acc, e.id = i) →
      data.foldl dedupStep acc = acc ++ firstOccAux data seen := by
  induction data with
  | nil => intro acc seen _; simp [firstOccAux]
  | cons e rest ih =>
    intro acc seen hinv
    by_cases h : (acc.any fun x => x.id = e.id) = true
    · have hseen : e.id ∈ seen := by
        rw [hinv]
        simpa using h
      simp only [List.foldl_cons, dedupStep, if_pos h, firstOccAux, if_pos hseen]
      exact ih acc seen hinv
    · have hnot : e.id ∉ seen := by
        rw [hinv]
        simpa using h
      simp only [List.foldl_cons, dedupStep, if_neg h, firstOccAux, if_neg hnot]
      rw [ih (acc ++ [e]) (e.id :: seen) ?_]
      · simp
      · intro i
        simp only [List.mem_cons, List.mem_append, List.mem_singleton,
          List.not_mem_nil, or_false]
        constructor
        · rintro (rfl | hi)
          · exact ⟨e, Or.inr rfl, rfl⟩
          · obtain ⟨x, hx, hxi⟩ := (hinv i).mp hi
            exact ⟨x, Or.inl hx, hxi⟩
        · rintro ⟨x, hx | rfl, hxi⟩
          · exact Or.inr ((hinv i).mpr ⟨x, hx, hxi⟩)
          · exact Or.inl hxi.symm

theorem dedupEndpoints_eq_firstOccurrences (data : List SophosEndpoint) :
    dedupEndpoints data = firstOccurrences data := by
  have h := foldl_dedupStep_eq data [] [] (by simp)
  simpa [dedupEndpoints, firstOccurrences] using h

theorem firstOccAux_ids_nodup (data : List SophosEndpoint) :
    ∀ seen : List String,
      ((firstOccAux data seen).map (fun e => e.id)).Nodup ∧
      ∀ e ∈ firstOccAux data seen, e.id ∉ seen := by
  induction data with
  | nil => intro seen; simp [firstOccAux]
  | cons e rest ih =>
    intro seen
    by_cases h : e.id ∈ seen
    · simpa only [firstOccAux, if_pos h] using ih seen
    · obtain ⟨hnd, hnotin⟩ := ih (e.id :: seen)
      simp only [firstOccAux, if_neg h, List.map_cons, List.nodup_cons,
        List.mem_map, List.mem_cons]
      refine ⟨⟨?_, hnd⟩, ?_⟩
      · rintro ⟨x, hx, hxe⟩
        exact hnotin x hx (by simp [hxe])
      · rintro x (rfl | hx)
        · exact h
        · intro hmem
          exact hnotin x hx (List.mem_cons_of_mem _ hmem)

theorem firstOccurrences_ids_nodup (data : List SophosEndpoint) :
    ((firstOccurrences data).map (fun e => e.id)).Nodup :=
  (firstOccAux_ids_nodup data []).1

theorem foldl_healthStep_eq (data : List SophosEndpoint) :
    ∀ acc : HealthCounts,
      (data.foldl healthStep acc).healthy
          = acc.healthy + (data.filter fun e => e.health.overall = "good").length ∧
      (data.foldl healthStep acc).warning
          = acc.warning + (data.filter fun e => e.health.overall = "warning").length ∧
      (data.foldl healthStep acc).critical
          = acc.critical + (data.filter fun e => e.health.overall = "critical").length := by
  induction data with
  | nil => intro acc; simp
  | cons e rest ih =>
    intro acc
    obtain ⟨ih1, ih2, ih3⟩ := ih (healthStep acc e)
    simp only [List.foldl_cons, List.filter_cons, ih1, ih2, ih3]
    by_cases h1 : e.health.overall = "good"
    · simp [healthStep, h1]
      omega
    · by_cases h2 : e.health.overall = "warning"
      · simp [healthStep, h1, h2]
        omega
      · by_cases h3 : e.health.overall = "critical"
        · simp [healthStep, h1, h2, h3]
          omega
        · simp [healthStep, h1, h2, h3]

theorem health_filter_sum_le (data : List SophosEndpoint) :
    (data.filter fun e => e.health.overall = "good").length +
      (data.filter fun e => e.health.overall = "warning").length +
      (data.filter fun e => e.health.overall = "critical").length ≤ data.length := by
  induction data with
  | nil => simp
  | cons e rest ih =>
    simp only [List.filter_cons, List.length_cons]
    by_cases h1 : e.health.overall = "good" <;>
      by_cases h2 : e.health.overall = "warning" <;>
      by_cases h3 : e.health.overall = "critical" <;>
      simp [h1, h2, h3] <;> omega

theorem filterConsLength {α : Type} (p : α → Bool) (a : α) (l : List α) :
    ((a :: l).filter p).length = (if p a = true then 1 else 0) + (l.filter p).length := by
  by_cases h : p a = true
  · rw [if_pos h]
    simp [List.filter_cons, h, Nat.add_comm]
  · rw [if_neg h]
    simp [List.filter_cons, h]

theorem health_filter_sum_lt_iff (data : List SophosEndpoint) :
    (data.filter fun e => e.health.overall = "good").length +
        (data.filter fun e => e.health.overall = "warning").length +
        (data.filter fun e => e.health.overall = "critical").length < data.length ↔
      ∃ e ∈ data, e.health.overall ≠ "good" ∧ e.health.overall ≠ "warning" ∧
        e.health.overall ≠ "critical" := by
  induction data with
  | nil => simp
  | cons e rest ih =>
    simp only [List.length_cons, filterConsLength, decide_eq_true_eq, List.mem_cons]
    by_cases h1 : e.health.overall = "good"
    · have n2 : ¬ e.health.overall = "warning" := by
        rw [h1]; decide
      have n3 : ¬ e.health.overall = "critical" := by
        rw [h1]; decide
      rw [if_pos h1, if_neg n2, if_neg n3]
      constructor
      · intro hlt
        obtain ⟨x, hx, hp⟩ := ih.mp (by omega)
        exact ⟨x, Or.inr hx, hp⟩
      · rintro ⟨x, rfl | hx, hp⟩
        · exact absurd h1 hp.1
        · have := ih.mpr ⟨x, hx, hp⟩
          omega
    · by_cases h2 : e.health.overall = "warning"
      · have n3 : ¬ e.health.overall = "critical" := by
          rw [h2]; decide
        rw [if_neg h1, if_pos h2, if_neg n3]
        constructor
        · intro hlt
          obtain ⟨x, hx, hp⟩ := ih.mp (by omega)
          exact ⟨x, Or.inr hx, hp⟩
        · rintro ⟨x, rfl | hx, hp⟩
          · exact absurd h2 hp.2.1
          · have := ih.mpr ⟨x, hx, hp⟩
            omega
      · by_cases h3 : e.health.overall = "critical"
        · rw [if_neg h1, if_neg h2, if_pos h3]
          constructor
          · intro hlt
            obtain ⟨x, hx, hp⟩ := ih.mp (by omega)
            exact ⟨x, Or.inr hx, hp⟩
          · rintro ⟨x, rfl | hx, hp⟩
            · exact absurd h3 hp.2.2
            · have := ih.mpr ⟨x, hx, hp⟩
              omega
        · rw [if_neg h1, if_neg h2, if_neg h3]
          constructor
          · intro _
            exact ⟨e, Or.inl rfl, h1, h2, h3⟩
          · intro _
            have := health_filter_sum_le rest
            omega

/-! ### Claim theorems -/

/-- C1, counterexample: with the force-mock flag unset and credential
loading returning `null`, `getSophosEndpointData` returns the mock
dataset with `success = true` and no `error` — not, as claimed,
`success = false` with a human-readable message (lines 350-357 of
`sophos-api.ts` treat missing credentials as a non-failure). -/
theorem missing_credentials_not_marked_failure :
    (getSophosEndpointData false none none (.error "network unreachable")).success = true ∧
    (getSophosEndpointData false none none (.error "network unreachable")).error = none ∧
    ¬ (getSophosEndpointData false none none (.error "network unreachable")).success = false := by
  refine ⟨rfl, rfl, ?_⟩
  decide

/-- C1, amended: for every call with the force-mock flag unset, if
loading credentials returns null, `getSophosEndpointData` returns the
fixed mock fallback dataset with `success = true`, `source = mock` and
no error, without throwing (the embedded function is total and ignores
the downstream token and fetch outcomes on this path). -/
theorem missing_credentials_returns_mock_success :
    ∀ (accessToken : Option String) (rawFetch : Except String (List RawEndpoint)),
      getSophosEndpointData false none accessToken rawFetch
        = { success := true, data := mockEndpoints, source := .mock, error := none } := by
  intro accessToken rawFetch
  rfl

/-- C6: whatever the credential state, token outcome and fetch outcome,
a set force-mock flag short-circuits `getSophosEndpointData` to
`success = true`, `source = mock` and the fixed 10-record sample
dataset. -/
theorem force_mock_short_circuits :
    ∀ (credentials : Option SophosCredentials) (accessToken : Option String)
      (rawFetch : Except String (List RawEndpoint)),
      getSophosEndpointData true credentials accessToken rawFetch
        = { success := true, data := mockEndpoints, source := .mock, error := none } ∧
      mockEndpoints.length = 10 := by
  intro credentials accessToken rawFetch
  exact ⟨rfl, rfl⟩

/-- C7: `getSophosEndpointData` never throws — it is a total function of
its effect outcomes — and every failure of token acquisition or endpoint
fetching yields `success = false`, `source = mock`, the constant mock
dataset as `data`, and a message in `error`. -/
theorem failures_yield_mock_fallback :
    ∀ (c : SophosCredentials) (t : String) (rawFetch : Except String (List RawEndpoint))
      (msg : String),
      getSophosEndpointData false (some c) none rawFetch
        = { success := false, data := mockEndpoints, source := .mock,
            error := some "Failed to obtain access token from Sophos Central" } ∧
      getSophosEndpointData false (some c) (some t) (.error msg)
        = { success := false, data := mockEndpoints, source := .mock, error := some msg } ∧
      (∀ (fm : Bool) (creds : Option SophosCredentials) (tok : Option String)
          (fr : Except String (List RawEndpoint)),
        (getSophosEndpointData fm creds tok fr).success = false →
          (getSophosEndpointData fm creds tok fr).data = mockEndpoints ∧
          (getSophosEndpointData fm creds tok fr).source = .mock ∧
          (getSophosEndpointData fm creds tok fr).error ≠ none) := by
  intro c t rawFetch msg
  refine ⟨rfl, rfl, ?_⟩
  intro fm creds tok fr hfail
  cases fm with
  | true => exact absurd hfail (by simp [getSophosEndpointData])
  | false =>
    cases creds with
    | none => exact absurd hfail (by simp [getSophosEndpointData])
    | some cr =>
      cases tok with
      | none =>
        refine ⟨rfl, rfl, ?_⟩
        simp [getSophosEndpointData]
      | some tk =>
        cases fr with
        | ok l =>
          exact absurd hfail (by simp [getSophosEndpointData, fetchSophosEndpoints])
        | error m =>
          refine ⟨rfl, rfl, ?_⟩
          simp [getSophosEndpointData, fetchSophosEndpoints]

/-- C7, witness: the token-failure and fetch-failure branches at
concrete inputs. -/
theorem failures_yield_mock_fallback_check :
    getSophosEndpointData false (some sampleCredentials) none (.ok [])
      = { success := false, data := mockEndpoints, source := .mock,
          error := some "Failed to obtain access token from Sophos Central" } ∧
    (getSophosEndpointData false (some sampleCredentials) (some "token")
        (.error "boom")).error ≠ none :=
  ⟨(failures_yield_mock_fallback sampleCredentials "token" (.ok []) "boom").1,
    ((failures_yield_mock_fallback sampleCredentials "token" (.ok []) "boom").2.2 false
      (some sampleCredentials) (some "token") (.error "boom") (by decide)).2.2⟩

/-- C2, counterexample: after a successful fetch of two raw records
sharing `id = "42"`, the `data` field returned by
`getSophosEndpointData` still contains both records — the function
returns the normalized list without any deduplication. -/
theorem api_data_can_repeat_ids :
    ((getSophosEndpointData false (some sampleCredentials) (some "token")
        (.ok [rawDupA, rawDupB])).data.map fun e => e.id) = ["42", "42"] ∧
    (getSophosEndpointData false (some sampleCredentials) (some "token")
        (.ok [rawDupA, rawDupB])).data.length = 2 ∧
    ¬ (((getSophosEndpointData false (some sampleCredentials) (some "token")
        (.ok [rawDupA, rawDupB])).data.map fun e => e.id).Nodup) := by
  refine ⟨rfl, rfl, ?_⟩
  decide

/-- C2, amended: the deduplication-by-id happens in the dashboard's
`fetchData` (page.tsx), not inside `getSophosEndpointData`: on every
successful result, the endpoint list `fetchData` stores is the
first-occurrence-wins deduplication of `result.data` (duplicates only
trigger a logged warning), and that stored list has at most one record
per id. -/
theorem fetchData_dedups_first_occurrence :
    ∀ (result : SophosResult), result.success = true →
      fetchData result
        = .loaded (firstOccurrences result.data) (computeStats result.data) result.source ∧
      (((firstOccurrences result.data).map fun e => e.id).Nodup) := by
  intro result h
  constructor
  · simp [fetchData, h, dedupEndpoints_eq_firstOccurrences]
  · exact firstOccurrences_ids_nodup result.data

/-- C2, witness: a successful result carrying a duplicated id, where the
stored list keeps exactly the first occurrence. -/
theorem fetchData_dedups_first_occurrence_check :
    (fetchData { success := true, data := [dupSample, dupSampleB], source := .api, error := none }
        = .loaded (firstOccurrences [dupSample, dupSampleB])
            (computeStats [dupSample, dupSampleB]) .api ∧
      (((firstOccurrences [dupSample, dupSampleB]).map fun e => e.id).Nodup)) ∧
    firstOccurrences [dupSample, dupSampleB] = [dupSample] :=
  ⟨fetchData_dedups_first_occurrence
      { success := true, data := [dupSample, dupSampleB], source := .api, error := none } rfl,
    by decide⟩

/-- C3, counterexample: on a successful result whose `data` holds two
records with the same id, `fetchData` stores the deduplicated list (one
endpoint) but computes the statistics from the raw `result.data`, so
`stats.totalEndpoints = 2` while the deduplicated list has length 1 —
the statistics are not functions of the deduplicated list. -/
theorem stats_computed_from_raw_list :
    fetchData { success := true, data := [dupSample, dupSampleB], source := .api, error := none }
      = .loaded (dedupEndpoints [dupSample, dupSampleB])
          (computeStats [dupSample, dupSampleB]) .api ∧
    (dedupEndpoints [dupSample, dupSampleB]).length = 1 ∧
    (computeStats [dupSample, dupSampleB]).totalEndpoints = 2 ∧
    ¬ ((computeStats [dupSample, dupSampleB]).totalEndpoints
        = (dedupEndpoints [dupSample, dupSampleB]).length) := by
  refine ⟨rfl, by decide, by decide, ?_⟩
  decide

/-- C3, amended: the dashboard statistics are pure functions of the
fetched list `result.data` before deduplication: for that list of
length N of which M are online (truthy `online`),
`stats.totalEndpoints = N`, `stats.onlineEndpoints = M` and
`stats.offlineEndpoints = N − M`; they agree with the deduplicated list
only when it drops nothing. -/
theorem stats_are_functions_of_fetched_list :
    ∀ (result : SophosResult), result.success = true →
      fetchData result
        = .loaded (dedupEndpoints result.data) (computeStats result.data) result.source ∧
      (computeStats result.data).totalEndpoints = result.data.length ∧
      (computeStats result.data).onlineEndpoints
        = (result.data.filter fun e => e.online.truthy).length ∧
      (computeStats result.data).offlineEndpoints
        = result.data.length - (result.data.filter fun e => e.online.truthy).length := by
  intro result h
  exact ⟨by simp [fetchData, h], rfl, rfl, rfl⟩

/-- C3, witness: the statistics evaluated on a concrete successful
result with one online and one offline record. -/
theorem stats_are_functions_of_fetched_list_check :
    (computeStats [dupSample, dupSampleB]).totalEndpoints = 2 ∧
    (computeStats [dupSample, dupSampleB]).onlineEndpoints = 1 ∧
    (computeStats [dupSample, dupSampleB]).offlineEndpoints = 1 := by
  have h := stats_are_functions_of_fetched_list
    { success := true, data := [dupSample, dupSampleB], source := .api, error := none } rfl
  exact ⟨h.2.1.trans (by decide), h.2.2.1.trans (by decide), h.2.2.2.trans (by decide)⟩

/-- C4: the normalized `ipAddresses` follows the priority order — a
present non-empty raw `ipAddresses` is used verbatim; otherwise a
present non-empty `ip_addresses` is used; otherwise the concatenation
`ipv4Addresses ++ ipv6Addresses ++ ipv4_addresses ++ ipv6_addresses`
with absent fields as empty lists — and on the spec's example record the
result is `["10.0.0.1", "::1"]` in that order. -/
theorem ip_resolution_priority :
    ∀ (r : RawEndpoint),
      (∀ l, r.ipAddresses = some l → l ≠ [] → (normalizeEndpoint r).ipAddresses = l) ∧
      ((r.ipAddresses = none ∨ r.ipAddresses = some []) →
        ∀ l, r.ip_addresses = some l → l ≠ [] → (normalizeEndpoint r).ipAddresses = l) ∧
      ((r.ipAddresses = none ∨ r.ipAddresses = some []) →
        (r.ip_addresses = none ∨ r.ip_addresses = some []) →
        (normalizeEndpoint r).ipAddresses
          = arrOrNil r.ipv4Addresses ++ arrOrNil r.ipv6Addresses ++
              arrOrNil r.ipv4_addresses ++ arrOrNil r.ipv6_addresses) ∧
      (normalizeEndpoint rawIpSplit).ipAddresses = ["10.0.0.1", "::1"] := by
  intro r
  refine ⟨?_, ?_, ?_, by decide⟩
  · intro l hl hne
    simp [normalizeEndpoint, resolveIpAddresses, nonEmptyArr, arrOrNil, hl, hne]
  · rintro (h0 | h0) l hl hne <;>
      simp [normalizeEndpoint, resolveIpAddresses, nonEmptyArr, arrOrNil, h0, hl, hne]
  · rintro (h0 | h0) (h1 | h1) <;>
      simp [normalizeEndpoint, resolveIpAddresses, nonEmptyArr, h0, h1]

/-- C4, witness: each priority tier exercised on a concrete record. -/
theorem ip_resolution_priority_check :
    (normalizeEndpoint rawIpCombined).ipAddresses = ["1.2.3.4"] ∧
    (normalizeEndpoint rawIpSnake).ipAddresses = ["5.6.7.8"] ∧
    (normalizeEndpoint rawIpSplit).ipAddresses = ["10.0.0.1", "::1"] :=
  ⟨(ip_resolution_priority rawIpCombined).1 ["1.2.3.4"] rfl (by decide),
    (ip_resolution_priority rawIpSnake).2.1 (Or.inl rfl) ["5.6.7.8"] rfl (by decide),
    (ip_resolution_priority rawIpSplit).2.2.2⟩

/-- C5: every listed field that is absent from the raw record resolves
to its stated default in the canonical record — `hostname` to "Unknown",
`os.name` to "Unknown OS", `type` (read from `endpoint_type`) to
"computer", `online` to `false`, `health.overall` to "unknown",
`group.name` to "No Group" — the canonical record's types are total, so
no absence propagates. -/
theorem absent_fields_resolve_to_defaults :
    ∀ (r : RawEndpoint),
      (r.hostname = none → (normalizeEndpoint r).hostname = "Unknown") ∧
      (r.os.bind RawOS.name = none → (normalizeEndpoint r).os.name = "Unknown OS") ∧
      (r.endpoint_type = none → (normalizeEndpoint r).type = "computer") ∧
      (r.online = .vUndefined → (normalizeEndpoint r).online = .vBool false) ∧
      (r.health.bind RawHealth.overall = none →
        (normalizeEndpoint r).health.overall = "unknown") ∧
      (r.group.bind RawGroup.name = none → (normalizeEndpoint r).group.name = "No Group") := by
  intro r
  refine ⟨?_, ?_, ?_, ?_, ?_, ?_⟩ <;> intro h <;>
    simp [normalizeEndpoint, orDefault, h, JSVal.truthy]

/-- C5, witness: the all-absent raw record normalizes to all the
defaults. -/
theorem absent_fields_resolve_to_defaults_check :
    (normalizeEndpoint rawAllAbsent).hostname = "Unknown" ∧
    (normalizeEndpoint rawAllAbsent).os.name = "Unknown OS" ∧
    (normalizeEndpoint rawAllAbsent).type = "computer" ∧
    (normalizeEndpoint rawAllAbsent).online = .vBool false ∧
    (normalizeEndpoint rawAllAbsent).health.overall = "unknown" ∧
    (normalizeEndpoint rawAllAbsent).group.name = "No Group" := by
  obtain ⟨h1, h2, h3, h4, h5, h6⟩ := absent_fields_resolve_to_defaults rawAllAbsent
  exact ⟨h1 rfl, h2 rfl, h3 rfl, h4 rfl, h5 rfl, h6 rfl⟩

/-- C8: normalization is a pure function of the raw record — two calls
on the same raw record yield identical canonical records. -/
theorem normalization_deterministic :
    ∀ (r₁ r₂ : RawEndpoint), r₁ = r₂ → normalizeEndpoint r₁ = normalizeEndpoint r₂ := by
  intro r₁ r₂ h
  rw [h]

/-- C8, witness: two calls on the sample raw record coincide. -/
theorem normalization_deterministic_check :
    normalizeEndpoint rawIpSplit = normalizeEndpoint rawIpSplit :=
  normalization_deterministic rawIpSplit rawIpSplit rfl

/-- C9: normalization coerces falsy present values, not only absent
fields — a present empty-string `hostname`, `os.name`, `group.name` or
`endpoint_type` resolves to the respective default, and any falsy
`online` value (`false`, `0`, `null`, `undefined`, `""`, all of which
are falsy in the model) yields `online = false`. -/
theorem falsy_fields_coerced_to_defaults :
    ∀ (r : RawEndpoint),
      (r.hostname = some "" → (normalizeEndpoint r).hostname = "Unknown") ∧
      (r.os.bind RawOS.name = some "" → (normalizeEndpoint r).os.name = "Unknown OS") ∧
      (r.group.bind RawGroup.name = some "" → (normalizeEndpoint r).group.name = "No Group") ∧
      (r.endpoint_type = some "" → (normalizeEndpoint r).type = "computer") ∧
      (r.online.truthy = false → (normalizeEndpoint r).online = .vBool false) ∧
      ((JSVal.vBool false).truthy = false ∧ (JSVal.vNum 0).truthy = false ∧
        JSVal.vNull.truthy = false ∧ JSVal.vUndefined.truthy = false ∧
        (JSVal.vStr "").truthy = false) := by
  intro r
  refine ⟨?_, ?_, ?_, ?_, ?_, by decide⟩ <;> intro h <;>
    simp [normalizeEndpoint, orDefault, h]

/-- C9, witness: the all-falsy raw record (empty strings, `online = 0`)
resolves to the defaults. -/
theorem falsy_fields_coerced_to_defaults_check :
    (normalizeEndpoint rawFalsy).hostname = "Unknown" ∧
    (normalizeEndpoint rawFalsy).os.name = "Unknown OS" ∧
    (normalizeEndpoint rawFalsy).group.name = "No Group" ∧
    (normalizeEndpoint rawFalsy).type = "computer" ∧
    (normalizeEndpoint rawFalsy).online = .vBool false := by
  obtain ⟨h1, h2, h3, h4, h5, _⟩ := falsy_fields_coerced_to_defaults rawFalsy
  exact ⟨h1 rfl, h2 rfl, h3 rfl, h4 rfl, h5 (by decide)⟩

/-- C10: an endpoint whose `health.overall` is outside "good",
"warning", "critical" is counted in no health bucket, so the three
bucket counts sum to at most `totalEndpoints`, with strict inequality
exactly when some endpoint's `health.overall` lies outside those three
values. -/
theorem health_buckets_bound_total :
    ∀ (data : List SophosEndpoint),
      (computeStats data).healthyEndpoints + (computeStats data).warningEndpoints +
          (computeStats data).criticalEndpoints ≤ (computeStats data).totalEndpoints ∧
      ((computeStats data).healthyEndpoints + (computeStats data).warningEndpoints +
          (computeStats data).criticalEndpoints < (computeStats data).totalEndpoints ↔
        ∃ e ∈ data, e.health.overall ≠ "good" ∧ e.health.overall ≠ "warning" ∧
          e.health.overall ≠ "critical") := by
  intro data
  obtain ⟨hg, hw, hc⟩ :=
    foldl_healthStep_eq data { healthy := 0, warning := 0, critical := 0 }
  constructor
  · show (data.foldl healthStep { healthy := 0, warning := 0, critical := 0 }).healthy +
        (data.foldl healthStep { healthy := 0, warning := 0, critical := 0 }).warning +
        (data.foldl healthStep { healthy := 0, warning := 0, critical := 0 }).critical ≤
        data.length
    rw [hg, hw, hc]
    simpa using health_filter_sum_le data
  · show (data.foldl healthStep { healthy := 0, warning := 0, critical := 0 }).healthy +
        (data.foldl healthStep { healthy := 0, warning := 0, critical := 0 }).warning +
        (data.foldl healthStep { healthy := 0, warning := 0, critical := 0 }).critical <
        data.length ↔ _
    rw [hg, hw, hc]
    simpa using health_filter_sum_lt_iff data

/-- C10, witness: with one "good" and one "unknown" endpoint the bucket
sum is strictly below the total. -/
theorem health_buckets_bound_total_check :
    (computeStats [dupSample, unknownHealthSample]).healthyEndpoints +
        (computeStats [dupSample, unknownHealthSample]).warningEndpoints +
        (computeStats [dupSample, unknownHealthSample]).criticalEndpoints <
      (computeStats [dupSample, unknownHealthSample]).totalEndpoints :=
  (health_buckets_bound_total [dupSample, unknownHealthSample]).2.mpr
    ⟨unknownHealthSample, by decide, by decide, by decide, by decide⟩

end SophosDashboard
